import Mathlib

set_option maxRecDepth 4096

/-!
Verification of the user-scoped task model and dashboard handlers of a
to-do list web application (Next.js frontend, task REST API).

Embedded from the repository sources:
* `src/frontend/lib/types.ts` (the `Task` entity),
* `src/frontend/components/TaskForm.tsx` (`handleSubmit`),
* `src/frontend/components/TaskItem.tsx` (`handleSaveEdit`),
* `src/frontend/app/dashboard/page.tsx` (the four dashboard mutation
  handlers and their list-splicing reconciliation),
* `src/frontend/lib/auth-server.ts` (`getBaseUrl` and the auth
  configuration object).

The backend task operations (list/create/read/update/toggleComplete/delete)
are not part of the provided sources; where a claim is about them they are
modelled from the specification (section 4.1) and marked as such.
-/

namespace TodoApp

/-- The `Task` entity as returned by the API
(`src/frontend/lib/types.ts`, `interface Task`).  `description` is
`string | null`, modelled as `Option String`. -/
structure Task where
  id : String
  title : String
  description : Option String
  completed : Bool
  created_at : String
  updated_at : String
deriving Repr, DecidableEq

/-- JavaScript `String.prototype.trim()`: removes leading and trailing
whitespace.  Defined over the character list so that it is fully
kernel-reducible. -/
def jsTrim (s : String) : String :=
  String.mk
    (((s.data.dropWhile Char.isWhitespace).reverse.dropWhile
        Char.isWhitespace).reverse)

/-- JavaScript truthiness of a possibly-undefined string
(`undefined` and `""` are falsy). -/
def jsTruthy : Option String → Bool
  | none => false
  | some s => !(s == "")

/-- JavaScript `a || b` for a possibly-undefined string `a` with a string
fallback `b` (used for `detail || "Failed ..."` and
`process.env.X || "default"`). -/
def jsOrElse (a : Option String) (b : String) : String :=
  match a with
  | none => b
  | some s => if s == "" then b else s

/-- Outcome of the create form's submit handler: either rejected
client-side with a local error message, or submitted to `onSubmit`
(which invokes the create API operation). -/
inductive SubmitOutcome where
  | rejected (localError : String)
  | submitted (title : String) (description : Option String)
deriving Repr, DecidableEq

/-- The create form submit handler
(`src/frontend/components/TaskForm.tsx`, `handleSubmit`): trims the
title, rejects an empty trimmed title, a trimmed title longer than 255,
or a description longer than 10000; otherwise calls
`onSubmit(trimmedTitle, description.trim() || null)`. -/
def handleSubmit (title description : String) : SubmitOutcome :=
  let trimmedTitle := jsTrim title
  if trimmedTitle == "" then
    .rejected "Title is required"
  else if trimmedTitle.length > 255 then
    .rejected "Title must be 255 characters or less"
  else if description.length > 10000 then
    .rejected "Description must be 10000 characters or less"
  else
    .submitted trimmedTitle
      (if jsTrim description == "" then none else some (jsTrim description))

/-- Whether the create form submit handler reached the `onSubmit` call,
i.e. invoked the create API operation. -/
def submitInvokesApi : SubmitOutcome → Bool
  | .rejected _ => false
  | .submitted _ _ => true

/-- Outcome of the task item's save-edit handler: either an early return
(no API call) or a call to `onUpdate` (which invokes the update API
operation). -/
inductive SaveEditOutcome where
  | noOp
  | updated (taskId title : String) (description : Option String)
deriving Repr, DecidableEq

/-- The task item save-edit handler
(`src/frontend/components/TaskItem.tsx`, `handleSaveEdit`): returns
early when the trimmed edit title is empty, otherwise calls
`onUpdate(task.id, trimmedTitle, editDescription.trim() || null)`.
Note the handler itself performs no length check on the title or the
description. -/
def handleSaveEdit (taskId editTitle editDescription : String) :
    SaveEditOutcome :=
  let trimmedTitle := jsTrim editTitle
  if trimmedTitle == "" then
    .noOp
  else
    .updated taskId trimmedTitle
      (if jsTrim editDescription == "" then none
       else some (jsTrim editDescription))

/-- Whether the save-edit handler reached the `onUpdate` call, i.e.
invoked the update API operation. -/
def saveEditInvokesApi : SaveEditOutcome → Bool
  | .noOp => false
  | .updated _ _ _ => true

/-- The dashboard component state touched by the mutation handlers
(`src/frontend/app/dashboard/page.tsx`): the task list, the page-level
error string and the create-form error string. -/
structure DashboardState where
  tasks : List Task
  error : Option String
  createError : Option String
deriving Repr, DecidableEq

/-- Result of one server operation as observed by a dashboard handler:
success with a value, or failure carrying the optional
`error.response?.data?.detail` string. -/
inductive ApiOutcome (α : Type) where
  | ok (value : α)
  | error (detail : Option String)
deriving Repr, DecidableEq

/-- What a dashboard handler did: the resulting component state, the
messages logged via `console.error`, whether the caught error was
re-thrown, and whether the API operation was invoked at all. -/
structure HandlerResult where
  state : DashboardState
  consoleErrors : List String
  rethrew : Bool
  apiInvoked : Bool
deriving Repr, DecidableEq

/-- `handleCreateTask` (`src/frontend/app/dashboard/page.tsx`): returns
immediately when `userId` is falsy; otherwise clears `createError`,
invokes `taskApi.createTask`, on success prepends the returned task, on
failure logs, sets `createError` to the response detail or a fallback,
and re-throws. -/
def handleCreateTask (userId : Option String) (api : ApiOutcome Task)
    (s : DashboardState) : HandlerResult :=
  if !jsTruthy userId then
    ⟨s, [], false, false⟩
  else
    let s1 := { s with createError := none }
    match api with
    | .ok newTask =>
        ⟨{ s1 with tasks := newTask :: s1.tasks }, [], false, true⟩
    | .error detail =>
        ⟨{ s1 with createError := some (jsOrElse detail "Failed to create task") },
          ["Failed to create task:"], true, true⟩

/-- `handleToggleComplete` (`src/frontend/app/dashboard/page.tsx`):
returns immediately when `userId` is falsy; otherwise invokes
`taskApi.toggleComplete`, on success replaces the matching entry with
the returned task, on failure logs and sets the page error (no
re-throw). -/
def handleToggleComplete (userId : Option String) (taskId : String)
    (api : ApiOutcome Task) (s : DashboardState) : HandlerResult :=
  if !jsTruthy userId then
    ⟨s, [], false, false⟩
  else
    match api with
    | .ok updatedTask =>
        ⟨{ s with tasks := s.tasks.map (fun t => if t.id == taskId then updatedTask else t) },
          [], false, true⟩
    | .error _ =>
        ⟨{ s with error := some "Failed to update task. Please try again." },
          ["Failed to toggle task:"], false, true⟩

/-- `handleUpdateTask` (`src/frontend/app/dashboard/page.tsx`): returns
immediately when `userId` is falsy; otherwise invokes
`taskApi.updateTask`, on success replaces the matching entry with the
returned task, on failure logs, sets the page error and re-throws. -/
def handleUpdateTask (userId : Option String) (taskId : String)
    (api : ApiOutcome Task) (s : DashboardState) : HandlerResult :=
  if !jsTruthy userId then
    ⟨s, [], false, false⟩
  else
    match api with
    | .ok updatedTask =>
        ⟨{ s with tasks := s.tasks.map (fun t => if t.id == taskId then updatedTask else t) },
          [], false, true⟩
    | .error _ =>
        ⟨{ s with error := some "Failed to update task. Please try again." },
          ["Failed to update task:"], true, true⟩

/-- `handleDeleteTask` (`src/frontend/app/dashboard/page.tsx`): returns
immediately when `userId` is falsy; otherwise invokes
`taskApi.deleteTask`, on success filters the matching entry out, on
failure logs and sets the page error (no re-throw). -/
def handleDeleteTask (userId : Option String) (taskId : String)
    (api : ApiOutcome Unit) (s : DashboardState) : HandlerResult :=
  if !jsTruthy userId then
    ⟨s, [], false, false⟩
  else
    match api with
    | .ok _ =>
        ⟨{ s with tasks := s.tasks.filter (fun t => t.id != taskId) },
          [], false, true⟩
    | .error _ =>
        ⟨{ s with error := some "Failed to delete task. Please try again." },
          ["Failed to delete task:"], false, true⟩

/-- The environment variables read by `src/frontend/lib/auth-server.ts`;
an unset variable is `none`. -/
structure Env where
  NEXT_PUBLIC_APP_URL : Option String
  VERCEL_URL : Option String
  NEXT_PUBLIC_API_URL : Option String
  BETTER_AUTH_SECRET : Option String
  DATABASE_URL : Option String
deriving Repr, DecidableEq

/-- `getBaseUrl` (`src/frontend/lib/auth-server.ts`): returns
`NEXT_PUBLIC_APP_URL` when truthy, else `https://` prepended to
`VERCEL_URL` when truthy, else `http://localhost:3000`. -/
def getBaseUrl (env : Env) : String :=
  if jsTruthy env.NEXT_PUBLIC_APP_URL then
    env.NEXT_PUBLIC_APP_URL.getD ""
  else if jsTruthy env.VERCEL_URL then
    "https://" ++ env.VERCEL_URL.getD ""
  else
    "http://localhost:3000"

/-- The `emailAndPassword` block of the Better Auth configuration. -/
structure EmailPasswordConfig where
  enabled : Bool
  minPasswordLength : Nat
deriving Repr, DecidableEq

/-- The options passed to the `jwt` plugin of the Better Auth
configuration. -/
structure JwtOptions where
  expirationTime : String
  issuer : String
  audience : String
deriving Repr, DecidableEq

/-- The Better Auth server configuration object, restricted to its
representable fields (`src/frontend/lib/auth-server.ts`, `auth`).  The
regex entry of `trustedOrigins` (the Vercel preview-deployment pattern)
is outside the fields listed here. -/
structure AuthConfig where
  secret : Option String
  databaseUrl : Option String
  emailAndPassword : EmailPasswordConfig
  jwtPlugin : JwtOptions
  trustedOrigins : List String
deriving Repr, DecidableEq

/-- The `auth` configuration object built at module load
(`src/frontend/lib/auth-server.ts`): email+password enabled with
`minPasswordLength: 8`, and the `jwt` plugin with `expirationTime: "7d"`
and issuer/audience both equal to `getBaseUrl()`. -/
def authConfig (env : Env) : AuthConfig :=
  let baseUrl := getBaseUrl env
  { secret := env.BETTER_AUTH_SECRET
    databaseUrl := env.DATABASE_URL
    emailAndPassword := { enabled := true, minPasswordLength := 8 }
    jwtPlugin := { expirationTime := "7d", issuer := baseUrl, audience := baseUrl }
    trustedOrigins :=
      [ jsOrElse env.NEXT_PUBLIC_API_URL "http://localhost:8000",
        "http://localhost:3000",
        "https://frontend-zeeshan-tariqs-projects.vercel.app",
        "https://frontend-eight-psi-iunua3v2s0.vercel.app" ] }

/-- Modelled from the spec: a stored task row of the backend Task
Resource Store (spec sections 3 and 4.1); the backend code is not among
the provided sources.  Timestamps are omitted; `owner` is the owning
user's id. -/
structure StoredTask where
  id : String
  owner : String
  title : String
  description : Option String
  completed : Bool
deriving Repr, DecidableEq

/-- Modelled from the spec: the backend task store, a sequence of stored
tasks (newest first, per the observed prepend-on-create ordering). -/
abbrev Store := List StoredTask

/-- Modelled from the spec: the error taxonomy of the task resource
contract relevant to the backend operations (spec sections 4.1 and 7). -/
inductive ApiErr where
  | validation
  | notFound
deriving Repr, DecidableEq

/-- The ownership predicate scoping every backend operation: the row
with the requested id that belongs to the requesting user. -/
def ownedBy (userId id : String) (t : StoredTask) : Bool :=
  t.id == id && t.owner == userId

/-- Modelled from the spec: `list()` returns the caller's tasks
(spec 4.1, "all implicitly scoped to the authenticated caller's user
id"). -/
def listTasks (store : Store) (userId : String) : List StoredTask :=
  store.filter (fun t => t.owner == userId)

/-- Modelled from the spec: reading a single task fails with
NotFoundError when the id does not belong to the caller (spec 4.1 and
the authorization invariant of spec 4.1/8). -/
def getTask (store : Store) (userId id : String) : Except ApiErr StoredTask :=
  match store.find? (ownedBy userId id) with
  | some t => .ok t
  | none => .error .notFound

/-- Modelled from the spec: `create(title, description?) → Task` fails
with ValidationError if the title is empty or exceeds 255 characters, or
the description exceeds 10000 characters; otherwise the new task is
owned by the caller, starts not completed, and is prepended (spec 3,
4.1). -/
def createTask (store : Store) (userId newId title : String)
    (description : Option String) : Except ApiErr (StoredTask × Store) :=
  if title == "" || title.length > 255 || (description.getD "").length > 10000 then
    .error .validation
  else
    let t : StoredTask :=
      { id := newId, owner := userId, title := title,
        description := description, completed := false }
    .ok (t, t :: store)

/-- Modelled from the spec: `update(id, title?, description?) → Task`
fails with NotFoundError if the id does not belong to the caller;
otherwise the provided fields replace the stored ones (spec 4.1). -/
def updateTask (store : Store) (userId id : String)
    (title description : Option String) : Except ApiErr (StoredTask × Store) :=
  match store.find? (ownedBy userId id) with
  | none => .error .notFound
  | some t =>
      let t' := { t with title := title.getD t.title,
                         description := description.orElse (fun _ => t.description) }
      .ok (t', store.map (fun u => if ownedBy userId id u then t' else u))

/-- Modelled from the spec: `toggleComplete(id) → Task` flips
`completed`; fails with NotFoundError if the id does not belong to the
caller (spec 4.1). -/
def toggleComplete (store : Store) (userId id : String) :
    Except ApiErr (StoredTask × Store) :=
  match store.find? (ownedBy userId id) with
  | none => .error .notFound
  | some t =>
      let t' := { t with completed := !t.completed }
      .ok (t', store.map (fun u => if ownedBy userId id u then t' else u))

/-- Modelled from the spec: `delete(id) → void` fails with NotFoundError
if the id does not belong to the caller; otherwise the row is removed
(spec 4.1). -/
def deleteTask (store : Store) (userId id : String) : Except ApiErr Store :=
  match store.find? (ownedBy userId id) with
  | none => .error .notFound
  | some _ => .ok (store.filter (fun u => !ownedBy userId id u))

/-! ## Helper lemmas -/

/-- A string of length zero is the empty string. -/
theorem string_length_eq_zero {s : String} (h : s.length = 0) : s = "" := by
  cases s with
  | mk data =>
    cases data with
    | nil => rfl
    | cons c cs => simp at h

/-- Replacing every element satisfying `p` by a fixed element `t'` that
itself satisfies `p` turns a successful `find?` into `find?` returning
`t'`. -/
theorem find?_of_map_replace {α : Type} (p : α → Bool) (t' : α) (l : List α)
    (t : α) (hp : p t' = true) (h : l.find? p = some t) :
    (l.map (fun u => if p u then t' else u)).find? p = some t' := by
  rw [List.find?_map]
  have hcomp : (p ∘ fun u => if p u then t' else u) = p := by
    funext u
    by_cases hu : p u = true
    · simp [hu, hp]
    · simp [hu]
  rw [hcomp, h]
  have hpt := List.find?_some h
  simp [hpt]

/-- The save-edit handler invokes the update API operation for every
non-blank title, whatever the description is. -/
theorem saveEdit_always_invokes (taskId editTitle editDescription : String)
    (h : ¬ jsTrim editTitle = "") :
    saveEditInvokesApi (handleSaveEdit taskId editTitle editDescription) =
      true := by
  simp [handleSaveEdit, saveEditInvokesApi, h]

/-! ## Claim theorems -/

/-- C10: for every dashboard mutation handler (create, toggle, update,
delete), if the session has no authenticated user id (falsy `userId`),
the handler returns immediately: no API operation is invoked, the task
list (and the whole component state) is unchanged, nothing is logged,
and no error string is set. -/
theorem C10_no_user_noop (userId : Option String)
    (hu : jsTruthy userId = false) (s : DashboardState)
    (apiC apiT apiU : ApiOutcome Task) (apiD : ApiOutcome Unit)
    (taskId : String) :
    handleCreateTask userId apiC s = ⟨s, [], false, false⟩ ∧
    handleToggleComplete userId taskId apiT s = ⟨s, [], false, false⟩ ∧
    handleUpdateTask userId taskId apiU s = ⟨s, [], false, false⟩ ∧
    handleDeleteTask userId taskId apiD s = ⟨s, [], false, false⟩ := by
  refine ⟨?_, ?_, ?_, ?_⟩ <;>
    simp [handleCreateTask, handleToggleComplete, handleUpdateTask,
      handleDeleteTask, hu]

/-- C10 witness: with no user id in the session, the create handler at a
concrete state is a silent no-op. -/
theorem C10_no_user_noop_witness :
    handleCreateTask none (.error none) ⟨[], none, none⟩ =
      ⟨⟨[], none, none⟩, [], false, false⟩ :=
  (C10_no_user_noop none rfl ⟨[], none, none⟩ (.error none) (.error none)
    (.error none) (.error none) "t1").1

/-- C9: the authentication server configuration enables email+password
login with minimum password length 8, and the JWT plugin issues tokens
with a 7-day expiry whose issuer and audience both equal the resolved
base URL. -/
theorem C9_auth_config (env : Env) :
    (authConfig env).emailAndPassword.enabled = true ∧
    (authConfig env).emailAndPassword.minPasswordLength = 8 ∧
    (authConfig env).jwtPlugin.expirationTime = "7d" ∧
    (authConfig env).jwtPlugin.issuer = getBaseUrl env ∧
    (authConfig env).jwtPlugin.audience = getBaseUrl env :=
  ⟨rfl, rfl, rfl, rfl, rfl⟩

/-- C8: `getBaseUrl` resolves, in order: the explicit public app URL
when set (truthy); else the Vercel deployment URL with `https://`
prepended when set (truthy); else the localhost fallback. -/
theorem C8_base_url_order (env : Env) :
    (∀ u : String, env.NEXT_PUBLIC_APP_URL = some u → u ≠ "" →
      getBaseUrl env = u) ∧
    (jsTruthy env.NEXT_PUBLIC_APP_URL = false →
      ∀ v : String, env.VERCEL_URL = some v → v ≠ "" →
        getBaseUrl env = "https://" ++ v) ∧
    (jsTruthy env.NEXT_PUBLIC_APP_URL = false →
      jsTruthy env.VERCEL_URL = false →
      getBaseUrl env = "http://localhost:3000") := by
  refine ⟨?_, ?_, ?_⟩
  · intro u hu hne
    simp [getBaseUrl, jsTruthy, hu, hne]
  · intro h1 v hv hne
    have h2 : jsTruthy env.VERCEL_URL = true := by
      simp [jsTruthy, hv, hne]
    unfold getBaseUrl
    rw [if_neg (by simp [h1]), if_pos h2, hv]
    rfl
  · intro h1 h2
    simp [getBaseUrl, h1, h2]

/-- C8 witness: with the explicit app URL set, `getBaseUrl` returns it;
with only the Vercel URL set, `getBaseUrl` prepends `https://`. -/
theorem C8_base_url_order_witness :
    getBaseUrl ⟨some "https://app.example.com", some "x.vercel.app", none, none, none⟩ =
      "https://app.example.com" ∧
    getBaseUrl ⟨none, some "x.vercel.app", none, none, none⟩ =
      "https://x.vercel.app" := by
  constructor
  · exact (C8_base_url_order
      ⟨some "https://app.example.com", some "x.vercel.app", none, none, none⟩).1
      "https://app.example.com" rfl (by decide)
  · exact (C8_base_url_order
      ⟨none, some "x.vercel.app", none, none, none⟩).2.1 rfl
      "x.vercel.app" rfl (by decide)

/-- C6: on success, create prepends the returned task with all
pre-existing entries unchanged and in order; toggle and update replace
exactly the entries whose id matches the target id (positionally, every
other entry is unchanged and the length is preserved); delete removes
exactly the entries whose id matches, keeping the rest as a sublist (in
their original order). -/
theorem C6_splice_reconciliation (userId : Option String)
    (hu : jsTruthy userId = true) (s : DashboardState)
    (newTask updatedTask : Task) (taskId : String) :
    (handleCreateTask userId (.ok newTask) s).state.tasks = newTask :: s.tasks ∧
    ((handleToggleComplete userId taskId (.ok updatedTask) s).state.tasks.length
        = s.tasks.length ∧
      ∀ i : Nat,
        (handleToggleComplete userId taskId (.ok updatedTask) s).state.tasks[i]? =
          s.tasks[i]?.map (fun t => if t.id == taskId then updatedTask else t)) ∧
    ((handleUpdateTask userId taskId (.ok updatedTask) s).state.tasks.length
        = s.tasks.length ∧
      ∀ i : Nat,
        (handleUpdateTask userId taskId (.ok updatedTask) s).state.tasks[i]? =
          s.tasks[i]?.map (fun t => if t.id == taskId then updatedTask else t)) ∧
    ((handleDeleteTask userId taskId (.ok ()) s).state.tasks.Sublist s.tasks ∧
      ∀ t : Task,
        t ∈ (handleDeleteTask userId taskId (.ok ()) s).state.tasks ↔
          t ∈ s.tasks ∧ t.id ≠ taskId) := by
  refine ⟨?_, ⟨?_, ?_⟩, ⟨?_, ?_⟩, ?_, ?_⟩
  · simp [handleCreateTask, hu]
  · simp [handleToggleComplete, hu]
  · intro i
    simp [handleToggleComplete, hu]
  · simp [handleUpdateTask, hu]
  · intro i
    simp [handleUpdateTask, hu]
  · simp only [handleDeleteTask, hu, Bool.not_true, Bool.false_eq_true,
      if_false]
    exact List.filter_sublist _
  · intro t
    simp [handleDeleteTask, hu]

/-- C6 witness: at a concrete state, a successful create prepends the
returned task. -/
theorem C6_splice_reconciliation_witness :
    (handleCreateTask (some "u1")
        (.ok ⟨"t2", "B", none, false, "d", "d"⟩)
        ⟨[⟨"t1", "A", none, false, "d", "d"⟩], none, none⟩).state.tasks =
      [⟨"t2", "B", none, false, "d", "d"⟩, ⟨"t1", "A", none, false, "d", "d"⟩] :=
  (C6_splice_reconciliation (some "u1") (by decide)
    ⟨[⟨"t1", "A", none, false, "d", "d"⟩], none, none⟩
    ⟨"t2", "B", none, false, "d", "d"⟩ ⟨"t2", "B", none, false, "d", "d"⟩ "t1").1

/-- C7: for every failed server operation invoked from the dashboard,
the task list is left unchanged, a visible error string is set (the
create-form error for create, the page error for the others), the error
is logged via `console.error`, and the error is re-thrown for create and
update but not for toggle and delete. -/
theorem C7_failure_handling (userId : Option String)
    (hu : jsTruthy userId = true) (s : DashboardState)
    (detail : Option String) (taskId : String) :
    ((handleCreateTask userId (.error detail) s).state.tasks = s.tasks ∧
      (handleCreateTask userId (.error detail) s).state.createError.isSome = true ∧
      (handleCreateTask userId (.error detail) s).consoleErrors ≠ [] ∧
      (handleCreateTask userId (.error detail) s).rethrew = true) ∧
    ((handleToggleComplete userId taskId (.error detail) s).state.tasks = s.tasks ∧
      (handleToggleComplete userId taskId (.error detail) s).state.error.isSome = true ∧
      (handleToggleComplete userId taskId (.error detail) s).consoleErrors ≠ [] ∧
      (handleToggleComplete userId taskId (.error detail) s).rethrew = false) ∧
    ((handleUpdateTask userId taskId (.error detail) s).state.tasks = s.tasks ∧
      (handleUpdateTask userId taskId (.error detail) s).state.error.isSome = true ∧
      (handleUpdateTask userId taskId (.error detail) s).consoleErrors ≠ [] ∧
      (handleUpdateTask userId taskId (.error detail) s).rethrew = true) ∧
    ((handleDeleteTask userId taskId (.error detail) s).state.tasks = s.tasks ∧
      (handleDeleteTask userId taskId (.error detail) s).state.error.isSome = true ∧
      (handleDeleteTask userId taskId (.error detail) s).consoleErrors ≠ [] ∧
      (handleDeleteTask userId taskId (.error detail) s).rethrew = false) := by
  refine ⟨⟨?_, ?_, ?_, ?_⟩, ⟨?_, ?_, ?_, ?_⟩, ⟨?_, ?_, ?_, ?_⟩, ?_, ?_, ?_, ?_⟩ <;>
    simp [handleCreateTask, handleToggleComplete, handleUpdateTask,
      handleDeleteTask, hu]

/-- C7 witness: at a concrete state and a failed create, the task list
is unchanged and the error is re-thrown. -/
theorem C7_failure_handling_witness :
    (handleCreateTask (some "u1") (.error (some "boom"))
        ⟨[⟨"t1", "A", none, false, "d", "d"⟩], none, none⟩).state.tasks =
      [⟨"t1", "A", none, false, "d", "d"⟩] ∧
    (handleCreateTask (some "u1") (.error (some "boom"))
        ⟨[⟨"t1", "A", none, false, "d", "d"⟩], none, none⟩).rethrew = true := by
  have h := C7_failure_handling (some "u1") (by decide)
    ⟨[⟨"t1", "A", none, false, "d", "d"⟩], none, none⟩ (some "boom") "t1"
  exact ⟨h.1.1, h.1.2.2.2⟩

/-- C1: for a task id that no task owned by the requesting user has,
every operation fails: list never returns such an id, read, update,
toggleComplete and delete all return a not-found error (the model never
leaks existence of another user's task), and create only ever produces a
task owned by the caller. -/
theorem C1_cross_user_isolation (store : Store) (u id : String)
    (title description : Option String) (newId ctitle : String)
    (cdescription : Option String)
    (h : ∀ t ∈ store, t.id = id → t.owner ≠ u) :
    (∀ t ∈ listTasks store u, t.id ≠ id) ∧
    getTask store u id = .error .notFound ∧
    updateTask store u id title description = .error .notFound ∧
    toggleComplete store u id = .error .notFound ∧
    deleteTask store u id = .error .notFound ∧
    (∀ t s', createTask store u newId ctitle cdescription = .ok (t, s') →
      t.owner = u) := by
  have hfind : store.find? (ownedBy u id) = none := by
    rw [List.find?_eq_none]
    intro t ht
    simp only [ownedBy, Bool.and_eq_true, beq_iff_eq, not_and]
    intro hid hown
    exact h t ht hid hown
  refine ⟨?_, ?_, ?_, ?_, ?_, ?_⟩
  · intro t ht hid
    simp only [listTasks, List.mem_filter, beq_iff_eq] at ht
    exact h t ht.1 hid ht.2
  · simp [getTask, hfind]
  · simp [updateTask, hfind]
  · simp [toggleComplete, hfind]
  · simp [deleteTask, hfind]
  · intro t s' hcreate
    unfold createTask at hcreate
    split at hcreate
    · exact absurd hcreate (by simp)
    · simp only [Except.ok.injEq, Prod.mk.injEq] at hcreate
      rw [← hcreate.1]

/-- C1 witness: user `alice` cannot read, update, toggle or delete
`bob`'s task `t1`. -/
theorem C1_cross_user_isolation_witness :
    getTask [⟨"t1", "bob", "Title", none, false⟩] "alice" "t1" =
      .error .notFound ∧
    toggleComplete [⟨"t1", "bob", "Title", none, false⟩] "alice" "t1" =
      .error .notFound ∧
    deleteTask [⟨"t1", "bob", "Title", none, false⟩] "alice" "t1" =
      .error .notFound := by
  have h := C1_cross_user_isolation [⟨"t1", "bob", "Title", none, false⟩]
    "alice" "t1" none none "t2" "x" none (by decide)
  exact ⟨h.2.1, h.2.2.2.1, h.2.2.2.2.1⟩

/-- C4: create with a title of length 1–255 and a description of length
at most 10000 succeeds, and the returned task carries the given title
and description unchanged. -/
theorem C4_create_round_trip (store : Store) (u newId title : String)
    (description : Option String)
    (h₁ : 1 ≤ title.length) (h₂ : title.length ≤ 255)
    (h₃ : (description.getD "").length ≤ 10000) :
    ∃ t s', createTask store u newId title description = .ok (t, s') ∧
      t.title = title ∧ t.description = description := by
  have hne : title ≠ "" := by
    intro heq
    rw [heq] at h₁
    simp at h₁
  refine ⟨{ id := newId, owner := u, title := title,
            description := description, completed := false },
          { id := newId, owner := u, title := title,
            description := description, completed := false } :: store,
          ?_, rfl, rfl⟩
  unfold createTask
  split
  · rename_i hc
    exfalso
    simp only [Bool.or_eq_true, beq_iff_eq, decide_eq_true_eq] at hc
    rcases hc with (hc | hc) | hc
    · exact hne hc
    · omega
    · omega
  · rfl

/-- C4 witness: creating a task with title `Buy milk` and no description
succeeds and returns that title and description unchanged. -/
theorem C4_create_round_trip_witness :
    1 ≤ "Buy milk".length ∧
    ∃ t s', createTask [] "alice" "t1" "Buy milk" none = .ok (t, s') ∧
      t.title = "Buy milk" ∧ t.description = none :=
  ⟨by decide,
    C4_create_round_trip [] "alice" "t1" "Buy milk" none
      (by decide) (by decide) (by decide)⟩

/-- C5: toggleComplete flips the `completed` boolean of the caller's
task, and toggling a second time restores the original value
(involution on the `completed` field). -/
theorem C5_toggle_involution (store : Store) (u id : String)
    (t : StoredTask) (h : store.find? (ownedBy u id) = some t) :
    ∃ t₁ s₁ t₂ s₂,
      toggleComplete store u id = .ok (t₁, s₁) ∧
      t₁.completed = !t.completed ∧
      toggleComplete s₁ u id = .ok (t₂, s₂) ∧
      t₂.completed = t.completed := by
  have hp : ownedBy u id { t with completed := !t.completed } = true := by
    have hpt := List.find?_some h
    simpa [ownedBy] using hpt
  have hfind₂ :
      (store.map (fun x =>
          if ownedBy u id x then { t with completed := !t.completed } else x)).find?
        (ownedBy u id) = some { t with completed := !t.completed } :=
    find?_of_map_replace (ownedBy u id) _ store t hp h
  have h₁ : toggleComplete store u id =
      .ok ({ t with completed := !t.completed },
        store.map (fun x =>
          if ownedBy u id x then { t with completed := !t.completed } else x)) := by
    unfold toggleComplete
    rw [h]
  have h₂ : toggleComplete
      (store.map (fun x =>
        if ownedBy u id x then { t with completed := !t.completed } else x)) u id =
      .ok ({ t with completed := !!t.completed },
        (store.map (fun x =>
          if ownedBy u id x then { t with completed := !t.completed } else x)).map
          (fun x =>
            if ownedBy u id x then { t with completed := !!t.completed } else x)) := by
    unfold toggleComplete
    rw [hfind₂]
  exact ⟨_, _, _, _, h₁, rfl, h₂, by simp⟩

/-- C5 witness: toggling `alice`'s incomplete task makes it completed,
and toggling again makes it incomplete. -/
theorem C5_toggle_involution_witness :
    ∃ t₁ s₁ t₂ s₂,
      toggleComplete [⟨"t1", "alice", "Buy milk", none, false⟩] "alice" "t1" =
        .ok (t₁, s₁) ∧
      t₁.completed = true ∧
      toggleComplete s₁ "alice" "t1" = .ok (t₂, s₂) ∧
      t₂.completed = false := by
  obtain ⟨t₁, s₁, t₂, s₂, h₁, h₂, h₃, h₄⟩ :=
    C5_toggle_involution [⟨"t1", "alice", "Buy milk", none, false⟩]
      "alice" "t1" ⟨"t1", "alice", "Buy milk", none, false⟩ (by decide)
  exact ⟨t₁, s₁, t₂, s₂, h₁, h₂, h₃, h₄⟩

/-- C2 counterexample: for a title of 256 non-whitespace characters
(length after trimming greater than 255), the update save handler does
not reject the input: it invokes the update API operation. -/
theorem C2_counterexample_overlong_edit_title :
    (jsTrim (String.mk (List.replicate 256 'a'))).length > 255 ∧
    saveEditInvokesApi
      (handleSaveEdit "task-1" (String.mk (List.replicate 256 'a')) "") =
      true := by
  decide

/-- C2 amended: for every title whose length after trimming is 0 or
greater than 255, the create submit handler rejects the input
client-side before any network call; the update save handler rejects
only titles that are empty after trimming — it performs no
255-character check itself (that bound is enforced only by the edit
input's `maxLength` attribute). -/
theorem C2_amended_client_validation
    (title description taskId editTitle editDescription : String) :
    ((jsTrim title).length = 0 ∨ (jsTrim title).length > 255 →
      submitInvokesApi (handleSubmit title description) = false) ∧
    ((jsTrim editTitle).length = 0 →
      saveEditInvokesApi (handleSaveEdit taskId editTitle editDescription) =
        false) := by
  constructor
  · intro h
    by_cases he : jsTrim title = ""
    · simp [handleSubmit, submitInvokesApi, he]
    · have h255 : (jsTrim title).length > 255 := by
        rcases h with h | h
        · exact absurd (string_length_eq_zero h) he
        · exact h
      simp [handleSubmit, submitInvokesApi, he, h255]
  · intro h
    have he : jsTrim editTitle = "" := string_length_eq_zero h
    simp [handleSaveEdit, saveEditInvokesApi, he]

/-- C2 amended witness: a blank title is rejected by the create submit
handler before any network call. -/
theorem C2_amended_client_validation_witness :
    (jsTrim "   ").length = 0 ∧
    submitInvokesApi (handleSubmit "   " "desc") = false :=
  ⟨by decide,
    (C2_amended_client_validation "   " "desc" "t" "x" "y").1
      (Or.inl (by decide))⟩

/-- C3 counterexample: for a description of 10001 characters, the update
save handler does not reject the input: it invokes the update API
operation. -/
theorem C3_counterexample_overlong_edit_description :
    (String.mk (List.replicate 10001 'a')).length > 10000 ∧
    saveEditInvokesApi
      (handleSaveEdit "task-1" "Buy milk"
        (String.mk (List.replicate 10001 'a'))) = true := by
  constructor
  · have h : (String.mk (List.replicate 10001 'a')).length =
        (List.replicate 10001 'a').length := String.length_mk _
    rw [h, List.length_replicate]
    omega
  · exact saveEdit_always_invokes "task-1" "Buy milk" _ (by decide)

/-- C3 amended: for every description longer than 10000 characters, the
create submit handler rejects the input without invoking the create API
operation; the update save handler performs no description-length check,
and for any non-blank title it invokes the update API operation
regardless of the description's length (the 10000 bound on edit is
enforced only by the textarea's `maxLength` attribute). -/
theorem C3_amended_description_validation
    (title description taskId editTitle editDescription : String) :
    (description.length > 10000 →
      submitInvokesApi (handleSubmit title description) = false) ∧
    (jsTrim editTitle ≠ "" →
      saveEditInvokesApi (handleSaveEdit taskId editTitle editDescription) =
        true) := by
  constructor
  · intro h
    by_cases he : jsTrim title = ""
    · simp [handleSubmit, submitInvokesApi, he]
    · by_cases h255 : (jsTrim title).length > 255
      · simp [handleSubmit, submitInvokesApi, he, h255]
      · simp [handleSubmit, submitInvokesApi, he, h255, h]
  · intro h
    exact saveEdit_always_invokes taskId editTitle editDescription h

/-- C3 amended witness: a 10001-character description is rejected by the
create submit handler. -/
theorem C3_amended_description_validation_witness :
    (String.mk (List.replicate 10001 'b')).length > 10000 ∧
    submitInvokesApi
      (handleSubmit "Buy milk" (String.mk (List.replicate 10001 'b'))) =
      false := by
  have hlen : (String.mk (List.replicate 10001 'b')).length > 10000 := by
    have h : (String.mk (List.replicate 10001 'b')).length =
        (List.replicate 10001 'b').length := String.length_mk _
    rw [h, List.length_replicate]
    omega
  exact ⟨hlen,
    (C3_amended_description_validation "Buy milk"
      (String.mk (List.replicate 10001 'b')) "t" "x" "y").1 hlen⟩

end TodoApp
